import Mathlib

/-!
Shallow embedding of the cargo-vessel matching service
(`src/backend/app/services/cargo_matching.py`) of the Maritime-AI-Agent
repository, together with theorems settling the frozen claims about it.

Modelling conventions:
* Python floats are modelled as exact rationals (`ℚ`); every numeric literal
  of the source is an exact decimal, so the translation is literal-for-literal.
* `datetime` values are modelled as whole days (`ℤ`); the source only ever
  adds whole-day `timedelta`s to them and compares / subtracts them, taking
  `.days` of the differences.
* Python `Optional` / `None` becomes `Option`; Python truthiness tests on
  optional ints (`if vessel.capacity_teu and cargo.quantity_teu:`) are
  modelled as "is `some` and nonzero".
* A function body that can raise (`ZeroDivisionError` on a zero divisor,
  `TypeError` on `None * float`) is modelled as `Option`-valued, returning
  `none` exactly on the raising inputs; the `try/except` blocks of
  `_evaluate_match` and `_calculate_voyage_economics` catch those exceptions
  and turn them into `None`, which is the same `none`.
* The great-circle helper `_calculate_distance` (Haversine, transcendental
  real arithmetic) is kept abstract as a parameter `dist : DistFn`; every
  theorem below is proved for an arbitrary `dist`, and every concrete
  input used in a witness or counterexample avoids calling it (vessel
  location `none`, ports absent from the port table), exactly as the
  source then takes its constant-default branches.
-/

/-- The vessel type enumeration of the source (`class VesselType(Enum)`). -/
inductive VesselType where
  | BULK_CARRIER
  | CONTAINER
  | TANKER
  | GENERAL_CARGO
  | RO_RO
  | REEFER
deriving DecidableEq

/-- The cargo type enumeration of the source (`class CargoType(Enum)`). -/
inductive CargoType where
  | DRY_BULK
  | LIQUID_BULK
  | CONTAINERS
  | BREAKBULK
  | VEHICLES
  | REFRIGERATED
deriving DecidableEq

/-- The `Vessel` dataclass of the source. Field `ice_class` of the source is
named `iceClass` here (tooling restriction on the identifier); all other
fields keep their source names. Dates are whole days (`ℤ`), floats are `ℚ`,
`current_location` is the optional `{"lat": .., "lon": ..}` pair. -/
structure Vessel where
  id : String
  name : String
  vessel_type : VesselType
  dwt : ℚ
  capacity_teu : Option ℤ
  capacity_cbm : Option ℚ
  speed_knots : ℚ
  fuel_consumption_mt_day : ℚ
  daily_hire_rate : ℚ
  current_location : Option (ℚ × ℚ)
  laycan_start : Option ℤ
  laycan_end : Option ℤ
  next_available : Option ℤ
  owner : String
  flag : String
  year_built : ℤ
  cargo_gear : Bool
  iceClass : Bool
deriving DecidableEq

/-- The `Cargo` dataclass of the source. -/
structure Cargo where
  id : String
  cargo_type : CargoType
  commodity : String
  quantity_mt : ℚ
  quantity_teu : Option ℤ
  volume_cbm : Option ℚ
  loading_port : String
  discharge_port : String
  laycan_start : Option ℤ
  laycan_end : Option ℤ
  freight_rate : ℚ
  freight_type : String
  special_requirements : Option (List String)
  charterer : String
  stowage_factor : ℚ
  requires_cargo_gear : Bool
  temperature_controlled : Bool
deriving DecidableEq

/-- The dictionary returned by `_calculate_voyage_economics`. -/
structure Economics where
  ballast_distance : ℚ
  laden_distance : ℚ
  total_distance : ℚ
  voyage_days : ℚ
  fuel_cost : ℚ
  hire_cost : ℚ
  port_costs : ℚ
  canal_costs : ℚ
  total_costs : ℚ
  gross_revenue : ℚ
  net_profit : ℚ
  profit_margin : ℚ
deriving DecidableEq

/-- The `CargoMatch` dataclass of the source. The `recommendations` field is
omitted: `_generate_recommendations` formats floating-point numbers into
strings (`f"... ({utilization:.1f}%) ..."`), which has no exact shallow
embedding, and no claim mentions it. All other fields are kept. -/
structure CargoMatch where
  vessel : Vessel
  cargo : Cargo
  compatibility_score : ℚ
  profitability_score : ℚ
  estimated_profit_usd : ℚ
  voyage_duration_days : ℚ
  distance_nm : ℚ
  fuel_cost_usd : ℚ
  port_costs_usd : ℚ
  total_voyage_cost_usd : ℚ
  gross_revenue_usd : ℚ
  net_profit_usd : ℚ
  profit_margin_percent : ℚ
  ballast_distance_nm : ℚ
  utilization_percent : ℚ
  risks : List String
deriving DecidableEq

/-- Abstract stand-in for `_calculate_distance` (Haversine over real-valued
trigonometry): latitude and longitude of two points, in; nautical miles, out. -/
def DistFn : Type := ℚ → ℚ → ℚ → ℚ → ℚ

/-- The `self.port_coordinates` table built in `__init__`. -/
def portCoordinates (port : String) : Option (ℚ × ℚ) :=
  List.lookup port
    [("singapore", (1.2966, 103.8006)),
     ("rotterdam", (51.9225, 4.4792)),
     ("shanghai", (31.2304, 121.4737)),
     ("new_york", (40.6892, -74.0445)),
     ("los_angeles", (33.7361, -118.2644)),
     ("hamburg", (53.5511, 9.9937)),
     ("antwerp", (51.2194, 4.4025)),
     ("busan", (35.1796, 129.0756)),
     ("dubai", (25.2769, 55.2962)),
     ("mumbai", (19.0896, 72.8656)),
     ("santos", (-23.9618, -46.3322)),
     ("cape_town", (-33.9249, 18.4241))]

/-- The `compatibility_matrix` dictionary of `_vessel_cargo_type_compatible`. -/
def allowedCargoTypes : VesselType → List CargoType
  | .BULK_CARRIER => [.DRY_BULK]
  | .CONTAINER => [.CONTAINERS]
  | .TANKER => [.LIQUID_BULK]
  | .GENERAL_CARGO => [.BREAKBULK, .DRY_BULK]
  | .RO_RO => [.VEHICLES]
  | .REEFER => [.REFRIGERATED, .CONTAINERS]

/-- `_vessel_cargo_type_compatible`: membership of the cargo type in the
matrix row of the vessel type. -/
def vesselCargoTypeCompatible (vt : VesselType) (ct : CargoType) : Bool :=
  (allowedCargoTypes vt).contains ct

/-- `_calculate_capacity_score`. The division `cargo.quantity_mt /
vessel.dwt` raises `ZeroDivisionError` when `vessel.dwt == 0` (reachable
because `quantity_mt <= 0 = dwt` passes the guard); that raise is modelled
as `none`. The TEU branch cannot divide by zero because Python truthiness
(`if vessel.capacity_teu and cargo.quantity_teu:`) already excludes `None`
and `0`. -/
def capacityScore (v : Vessel) (c : Cargo) : Option ℚ :=
  if c.cargo_type = CargoType.CONTAINERS then
    match v.capacity_teu, c.quantity_teu with
    | some ct, some qt =>
      if ct ≠ 0 ∧ qt ≠ 0 then
        let u : ℚ := (qt : ℚ) / (ct : ℚ)
        some (if 7/10 ≤ u ∧ u ≤ 1 then 100
              else if 1/2 ≤ u ∧ u < 7/10 then 80 * u / (7/10)
              else 50)
      else some 0
    | _, _ => some 0
  else
    if c.quantity_mt ≤ v.dwt then
      if v.dwt = 0 then none
      else
        let u : ℚ := c.quantity_mt / v.dwt
        some (if 7/10 ≤ u ∧ u ≤ 19/20 then 100
              else if 1/2 ≤ u ∧ u < 7/10 then 80 * u / (7/10)
              else 60)
    else some 0

/-- `_calculate_laycan_compatibility`. A missing `laycan_end` defaults to
`laycan_start + timedelta(days=3)`; with whole-day dates the Python
`.days` of a difference is the difference itself. -/
def laycanScore (v : Vessel) (c : Cargo) : ℚ :=
  match v.laycan_start, c.laycan_start with
  | some vs, some cs =>
    let ve := v.laycan_end.getD (vs + 3)
    let ce := c.laycan_end.getD (cs + 3)
    let overlapStart := max vs cs
    let overlapEnd := min ve ce
    if overlapStart ≤ overlapEnd then
      let overlapDays := overlapEnd - overlapStart
      if 2 ≤ overlapDays then 100
      else if 1 ≤ overlapDays then 80
      else 60
    else
      let gapDays := min |vs - ce| |cs - ve|
      if gapDays ≤ 2 then 40
      else if gapDays ≤ 5 then 20
      else 0
  | _, _ => 50

/-- The deduction taken by one iteration of the `if/elif` chain of
`_check_special_requirements` for a single requirement string. -/
def requirementDeduction (v : Vessel) (req : String) : ℚ :=
  if req = "cargo_gear" ∧ ¬ v.cargo_gear then 50
  else if req = "ice_class" ∧ ¬ v.iceClass then 30
  else if req = "temperature_controlled" ∧ v.vessel_type ≠ VesselType.REEFER then 40
  else 0

/-- `_check_special_requirements`: start from 100, deduct per requirement,
clamp at 0 at the end. A `None` requirement list behaves like the empty
list (the fold is then a no-op, matching the skipped `if` body). -/
def specialScore (v : Vessel) (c : Cargo) : ℚ :=
  max 0 ((c.special_requirements.getD []).foldl (fun s req => s - requirementDeduction v req) 100)

/-- `_calculate_compatibility_score`: 0 for an incompatible vessel/cargo
type pair, otherwise `min 100 (40 + 0.3·capacity + 0.2·laycan +
0.1·special)`; `none` propagates the capacity division error. -/
def compatibilityScore (v : Vessel) (c : Cargo) : Option ℚ :=
  if vesselCargoTypeCompatible v.vessel_type c.cargo_type then
    match capacityScore v c with
    | some cap =>
        some (min 100 (40 + cap * (3/10) + laycanScore v c * (1/5) + specialScore v c * (1/10)))
    | none => none
  else some 0

/-- `_calculate_ballast_distance`: 0 with no current location, the 500 nm
default for an unknown loading port, otherwise the great-circle distance. -/
def ballastDistance (dist : DistFn) (v : Vessel) (c : Cargo) : ℚ :=
  match v.current_location with
  | none => 0
  | some vloc =>
    match portCoordinates c.loading_port.toLower with
    | none => 500
    | some lp => dist vloc.1 vloc.2 lp.1 lp.2

/-- `_calculate_laden_distance`: the 5000 nm default when either port is
unknown, otherwise the great-circle distance. -/
def ladenDistance (dist : DistFn) (c : Cargo) : ℚ :=
  match portCoordinates c.loading_port.toLower, portCoordinates c.discharge_port.toLower with
  | some lp, some dp => dist lp.1 lp.2 dp.1 dp.2
  | _, _ => 5000

/-- `_calculate_canal_costs` with the `self.canal_fees` table of `__init__`
(suez 250000, panama 300000). -/
def canalCosts (c : Cargo) : ℚ :=
  let lp := c.loading_port.toLower
  let dp := c.discharge_port.toLower
  if (lp = "dubai" ∨ lp = "mumbai") ∧ (dp = "rotterdam" ∨ dp = "hamburg" ∨ dp = "antwerp") then
    250000
  else if (lp = "new_york" ∨ dp = "new_york") ∧
      (lp = "shanghai" ∨ dp = "shanghai" ∨ lp = "busan" ∨ dp = "busan") then
    300000
  else 0

/-- `_calculate_voyage_economics`, with `self.fuel_price_usd_mt = 650` and
`self.port_cost_base = 15000` from `__init__`. The laden-leg division
`laden_distance / (vessel.speed_knots * 24)` raises `ZeroDivisionError`
when `speed_knots == 0` (it is computed on every path); the surrounding
`try/except` returns `None`, modelled as `none`. In the voyage-freight
container branch, `cargo.quantity_teu * cargo.freight_rate` with a `None`
TEU count raises `TypeError`, likewise caught and modelled `none`. -/
def voyageEconomics (dist : DistFn) (v : Vessel) (c : Cargo) : Option Economics :=
  if v.speed_knots = 0 then none
  else
    let ballast := ballastDistance dist v c
    let laden := ladenDistance dist c
    let total := ballast + laden
    let ballastDays := if ballast > 0 then ballast / (v.speed_knots * 24) else 0
    let ladenDays := laden / (v.speed_knots * 24)
    let voyageDays := ballastDays + ladenDays + 3
    let fuelCost := (total / 24) * v.fuel_consumption_mt_day * 650
    let hireCost := voyageDays * v.daily_hire_rate
    let portCosts := 15000 * 2
    let canal := canalCosts c
    let totalCosts := fuelCost + hireCost + portCosts + canal
    let grossRevenueOpt : Option ℚ :=
      if c.freight_type = "voyage" then
        if c.cargo_type = CargoType.CONTAINERS then
          match c.quantity_teu with
          | none => none
          | some qt => some ((qt : ℚ) * c.freight_rate)
        else some (c.quantity_mt * c.freight_rate)
      else some (voyageDays * c.freight_rate)
    match grossRevenueOpt with
    | none => none
    | some gross =>
      let netProfit := gross - totalCosts
      let margin := if gross > 0 then netProfit / gross * 100 else 0
      some ⟨ballast, laden, total, voyageDays, fuelCost, hireCost, portCosts, canal,
            totalCosts, gross, netProfit, margin⟩

/-- `_calculate_profitability_score`: the step function of the profit margin. -/
def profitabilityScore (e : Economics) : ℚ :=
  if 20 ≤ e.profit_margin then 100
  else if 15 ≤ e.profit_margin then 90
  else if 10 ≤ e.profit_margin then 80
  else if 5 ≤ e.profit_margin then 60
  else if 0 ≤ e.profit_margin then 40
  else 0

/-- `_calculate_utilization`. The weight branch divides by `vessel.dwt`
unconditionally, raising on `dwt == 0` (modelled `none`, caught by the
caller); the TEU branch is guarded by truthiness as in `capacityScore`. -/
def utilizationPercent (v : Vessel) (c : Cargo) : Option ℚ :=
  if c.cargo_type = CargoType.CONTAINERS then
    match v.capacity_teu, c.quantity_teu with
    | some ct, some qt =>
      if ct ≠ 0 ∧ qt ≠ 0 then some (min 100 ((qt : ℚ) / (ct : ℚ) * 100)) else some 0
    | _, _ => some 0
  else if v.dwt = 0 then none
  else some (min 100 (c.quantity_mt / v.dwt * 100))

/-- `_vessel_meets_requirement` with its `requirement_map` (default `True`). -/
def vesselMeetsRequirement (v : Vessel) (req : String) : Bool :=
  if req = "cargo_gear" then v.cargo_gear
  else if req = "ice_class" then v.iceClass
  else if req = "temperature_controlled" then v.vessel_type = VesselType.REEFER
  else true

/-- Python `pattern in string` substring containment. -/
def containsSubstr (s pat : String) : Bool :=
  (List.range (s.length + 1)).any fun i => (s.drop i).startsWith pat

/-- `_identify_risks`: the five appends, in source order. -/
def identifyRisks (v : Vessel) (c : Cargo) (e : Economics) : List String :=
  (if e.profit_margin < 5 then ["Low profit margin - market volatility risk"] else []) ++
  (if e.voyage_days > 30 then ["Long voyage duration - exposure to market changes"] else []) ++
  (if v.year_built < 2000 then ["Older vessel - higher maintenance and breakdown risk"] else []) ++
  (if (c.special_requirements.getD []) ≠ [] ∧
      ¬ (c.special_requirements.getD []).all (vesselMeetsRequirement v) then
    ["Special requirements may not be fully met"] else []) ++
  (if (["gulf_of_aden", "gulf_of_guinea", "strait_of_malacca"].any fun a =>
        containsSubstr c.loading_port.toLower a || containsSubstr c.discharge_port.toLower a) then
    ["Transit through high piracy risk areas"] else [])

/-- `_evaluate_match`: compatibility below 50 or a failed economics
computation yields no match; any exception raised inside (the `none`s of
the component functions) is caught by the `try/except` and likewise yields
`None`. Otherwise the full `CargoMatch` record is assembled. -/
def evaluateMatch (dist : DistFn) (v : Vessel) (c : Cargo) : Option CargoMatch :=
  match compatibilityScore v c with
  | none => none
  | some compat =>
    if compat < 50 then none
    else
      match voyageEconomics dist v c with
      | none => none
      | some e =>
        match utilizationPercent v c with
        | none => none
        | some util =>
          some ⟨v, c, compat, profitabilityScore e, e.net_profit, e.voyage_days,
                e.total_distance, e.fuel_cost, e.port_costs, e.total_costs,
                e.gross_revenue, e.net_profit, e.profit_margin, e.ballast_distance,
                util, identifyRisks v c e⟩

/-- The per-cargo body of the generation loop of `find_optimal_matches`:
keep an evaluated match only when it exists and its compatibility score
reaches `min_compatibility`. -/
def evalFiltered (dist : DistFn) (minCompatibility : ℚ) (v : Vessel) (c : Cargo) :
    Option CargoMatch :=
  match evaluateMatch dist v c with
  | some m => if m.compatibility_score ≥ minCompatibility then some m else none
  | none => none

/-- Ordering used by `matches.sort(key=lambda x: x.profitability_score, reverse=True)`. -/
def byProfitability (a b : CargoMatch) : Prop :=
  b.profitability_score ≤ a.profitability_score

/-- Ordering used by the `sort_by == "compatibility"` branch. -/
def byCompatibility (a b : CargoMatch) : Prop :=
  b.compatibility_score ≤ a.compatibility_score

/-- Ordering used by the `sort_by == "utilization"` branch. -/
def byUtilization (a b : CargoMatch) : Prop :=
  b.utilization_percent ≤ a.utilization_percent

instance : DecidableRel byProfitability :=
  fun a b => inferInstanceAs (Decidable (b.profitability_score ≤ a.profitability_score))

instance : DecidableRel byCompatibility :=
  fun a b => inferInstanceAs (Decidable (b.compatibility_score ≤ a.compatibility_score))

instance : DecidableRel byUtilization :=
  fun a b => inferInstanceAs (Decidable (b.utilization_percent ≤ a.utilization_percent))

/-- The sorting step of `find_optimal_matches`. Python `list.sort` is a
stable sort; stable sorting by a key has a unique result, here modelled by
the stable `List.insertionSort` (an unrecognized `sort_by` leaves the list
unsorted, as in the source). -/
def sortMatches (sortBy : String) (ms : List CargoMatch) : List CargoMatch :=
  if sortBy = "profitability" then ms.insertionSort byProfitability
  else if sortBy = "compatibility" then ms.insertionSort byCompatibility
  else if sortBy = "utilization" then ms.insertionSort byUtilization
  else ms

/-- `find_optimal_matches`: evaluate every vessel × cargo combination,
filter by `min_compatibility`, sort per `sort_by`, return the first
`max_matches`. The vessel and cargo databases are passed explicitly
(`self.vessels_db`, `self.cargo_db`). -/
def findOptimalMatches (dist : DistFn) (vessels : List Vessel) (cargos : List Cargo)
    (maxMatches : ℕ) (minCompatibility : ℚ) (sortBy : String) : List CargoMatch :=
  (sortMatches sortBy
    (vessels.map fun v => cargos.filterMap fun c =>
      evalFiltered dist minCompatibility v c).flatten).take maxMatches

/-- `add_vessel`: append and report `True` only when no stored vessel has
the same id; otherwise leave the database unchanged and report `False`. -/
def addVessel (db : List Vessel) (v : Vessel) : List Vessel × Bool :=
  if db.any fun w => w.id == v.id then (db, false) else (db ++ [v], true)

/-- `add_cargo`: same duplicate-id guard for the cargo database. -/
def addCargo (db : List Cargo) (c : Cargo) : List Cargo × Bool :=
  if db.any fun w => w.id == c.id then (db, false) else (db ++ [c], true)

/-- Modelled from the spec: §4.4 — a severity embedded in one risk string,
written `"<label>: <value>/<max>"`; the numeric `<value>` is extracted.
No risk-score derivation exists under src/. -/
def parseSeverity (s : String) : Option ℚ :=
  match s.splitOn ": " with
  | _ :: rest :: _ =>
    match rest.splitOn "/" with
    | valStr :: _ :: _ => (valStr.toNat?).map fun n => (n : ℚ)
    | _ => none
  | _ => none

/-- Modelled from the spec: §4.4 — the scalar `risk_score` "is derived by
parsing embedded severities out of risk strings and averaging the numeric
values; zero risk factors ⇒ risk_score = 0". No risk-score derivation
exists under src/. -/
def riskScore (risks : List String) : ℚ :=
  let vals := risks.filterMap parseSeverity
  if vals.length = 0 then 0 else vals.sum / (vals.length : ℚ)

/-- Modelled from the spec: the fitness `profit_margin_percent/100 +
compatibility_score − risk_score` (§4.5 Evaluation, Glossary). No fitness
computation exists under src/. -/
def fitness (m : CargoMatch) : ℚ :=
  m.profit_margin_percent / 100 + m.compatibility_score - riskScore m.risks

/-- Descending fitness order, as the spec's "sort by fitness descending". -/
def byFitness (a b : CargoMatch) : Prop :=
  fitness b ≤ fitness a

instance : DecidableRel byFitness :=
  fun a b => inferInstanceAs (Decidable (fitness b ≤ fitness a))

/-- Modelled from the spec: a 32-bit linear congruential generator standing
in for the injectable seedable random source (§5, §9). -/
def lcg (s : ℕ) : ℕ := (1664525 * s + 1013904223) % 4294967296

/-- Modelled from the spec: §4.5 Initialization — one Candidate is "built by
repeatedly drawing a random unused (vessel_index, cargo_index) pair until
min(len(vessels), len(cargos)) pairs are collected". No optimizer
implementation exists under src/. `fuel` bounds the number of draws (the
spec's loop is unbounded); a drawn pair is kept only when both its vessel
index and its cargo index are still unused in the candidate. -/
def buildCandidate : ℕ → ℕ → ℕ → ℕ → List (ℕ × ℕ) → List (ℕ × ℕ)
  | 0, _, _, _, acc => acc
  | fuel + 1, s, nV, nC, acc =>
    if min nV nC ≤ acc.length then acc
    else
      let s1 := lcg s
      let i := s1 % nV
      let s2 := lcg s1
      let j := s2 % nC
      if acc.any fun p => p.1 == i || p.2 == j then
        buildCandidate fuel s2 nV nC acc
      else
        buildCandidate fuel s2 nV nC ((i, j) :: acc)

/-- Modelled from the spec: §4.5 — "Generate population_size (default 50)
random Candidates"; candidate `k` is built from the `k`-th successive seed. -/
def initPopulation (seed nV nC popSize : ℕ) : List (List (ℕ × ℕ)) :=
  (List.range popSize).map fun k => buildCandidate (20 * min nV nC + 100) (seed + k) nV nC []

/-- A dummy instantiation of the abstract Haversine parameter, used only at
concrete inputs that never reach it (vessel location `none` and ports
absent from `portCoordinates`, where the source takes its constant
defaults before ever calling `_calculate_distance`). -/
def distZero : DistFn := fun _ _ _ _ => 0

/-- Concrete bulk carrier: dwt 100000, speed 625/3 knots (so the 5000 nm
default laden leg takes exactly one day), zero fuel and hire cost, no
stored position, no laycan. -/
def vesselA : Vessel :=
  ⟨"V1", "Bulk One", VesselType.BULK_CARRIER, 100000, none, none, 625/3, 0, 0,
   none, none, none, none, "", "", 2010, false, false⟩

/-- Concrete dry-bulk cargo: 10000 mt at 4 usd/mt between ports unknown to
the port table. -/
def cargoA : Cargo :=
  ⟨"CA", CargoType.DRY_BULK, "Ore", 10000, none, none, "x", "y", none, none,
   4, "voyage", none, "", 1.5, false, false⟩

/-- Concrete dry-bulk cargo: 80000 mt at 37/80 usd/mt between ports unknown
to the port table. -/
def cargoB : Cargo :=
  ⟨"CB", CargoType.DRY_BULK, "Grain", 80000, none, none, "x", "y", none, none,
   37/80, "voyage", none, "", 1.5, false, false⟩

/-- Concrete dry-bulk cargo whose 200000 mt exceed `vesselA`'s dwt. -/
def cargoHeavy : Cargo :=
  ⟨"C5", CargoType.DRY_BULK, "Coal", 200000, none, none, "x", "y", none, none,
   4, "voyage", none, "", 1.5, false, false⟩

/-- Concrete container vessel with 1000 TEU capacity. -/
def vesselC : Vessel :=
  ⟨"V2", "Box One", VesselType.CONTAINER, 100000, some 1000, none, 625/3, 0, 0,
   none, none, none, none, "", "", 2010, false, false⟩

/-- Concrete container cargo with no TEU count: evaluating it against a
container vessel under voyage freight raises `TypeError` in
`_calculate_voyage_economics` (`None * float`), caught and dropped. -/
def cargoNoTeu : Cargo :=
  ⟨"C0", CargoType.CONTAINERS, "Boxes", 0, none, none, "x", "y", none, none,
   10, "voyage", none, "", 1.5, false, false⟩

/-- Concrete container cargo of 800 TEU at 50 usd/TEU. -/
def cargoTeu : Cargo :=
  ⟨"CT", CargoType.CONTAINERS, "Boxes", 0, some 800, none, "x", "y", none, none,
   50, "voyage", none, "", 1.5, false, false⟩

/-- The `CargoMatch` the pipeline produces for `(vesselA, cargoA)`:
ballast 0 (no location), laden 5000 (unknown ports), 4 voyage days, costs
30000, revenue 40000, margin 25 %, capacity component 60, score 78. -/
def matchA : CargoMatch :=
  ⟨vesselA, cargoA, 78, 100, 10000, 4, 5000, 0, 30000, 30000, 40000, 10000, 25, 0, 10, []⟩

/-- The `CargoMatch` the pipeline produces for `(vesselA, cargoB)`: revenue
37000, margin 700/37 ≈ 18.92 %, profitability 90, score 90. -/
def matchB : CargoMatch :=
  ⟨vesselA, cargoB, 90, 90, 7000, 4, 5000, 0, 30000, 30000, 37000, 7000, 700/37, 0, 80, []⟩

/-- The economics record of `(vesselA, cargoA)`: ballast 0, laden 5000,
one laden day plus three port days, zero fuel and hire cost, 30000 port
costs, 40000 revenue, 25 % margin. -/
def econA : Economics := ⟨0, 5000, 5000, 4, 0, 0, 30000, 0, 30000, 40000, 10000, 25⟩

/-- The economics record of `(vesselA, cargoB)`: revenue 37000, margin 700/37. -/
def econB : Economics := ⟨0, 5000, 5000, 4, 0, 0, 30000, 0, 30000, 37000, 7000, 700/37⟩

instance : IsTotal CargoMatch byProfitability :=
  ⟨fun a b => (le_total b.profitability_score a.profitability_score).imp id id⟩

instance : IsTrans CargoMatch byProfitability :=
  ⟨fun _ _ _ h1 h2 => le_trans h2 h1⟩

/-- Every deduction of the special-requirements check is nonnegative. -/
theorem requirementDeduction_nonneg (v : Vessel) (req : String) :
    0 ≤ requirementDeduction v req := by
  unfold requirementDeduction
  split_ifs <;> norm_num

/-- Folding the deductions only ever decreases the running score. -/
theorem foldl_deduction_le (v : Vessel) :
    ∀ (l : List String) (s : ℚ),
      l.foldl (fun s req => s - requirementDeduction v req) s ≤ s := by
  intro l
  induction l with
  | nil => intro s; simp
  | cons req rest ih =>
    intro s
    calc rest.foldl (fun s req => s - requirementDeduction v req) (s - requirementDeduction v req)
        ≤ s - requirementDeduction v req := ih _
      _ ≤ s := by have := requirementDeduction_nonneg v req; linarith

/-- The special-requirements component lies in [0, 100]. -/
theorem specialScore_bounds (v : Vessel) (c : Cargo) :
    0 ≤ specialScore v c ∧ specialScore v c ≤ 100 := by
  unfold specialScore
  refine ⟨le_max_left _ _, max_le (by norm_num) ?_⟩
  exact foldl_deduction_le v _ 100

/-- The laycan component lies in [0, 100]. -/
theorem laycanScore_bounds (v : Vessel) (c : Cargo) :
    0 ≤ laycanScore v c ∧ laycanScore v c ≤ 100 := by
  unfold laycanScore
  cases hv : v.laycan_start <;> cases hc : c.laycan_start <;> dsimp only
  case some.some => constructor <;> (split_ifs <;> norm_num)
  all_goals exact ⟨by norm_num, by norm_num⟩

/-- The capacity component, when defined, lies in [0, 100]. -/
theorem capacityScore_bounds (v : Vessel) (c : Cargo) (q : ℚ)
    (h : capacityScore v c = some q) : 0 ≤ q ∧ q ≤ 100 := by
  unfold capacityScore at h
  split at h
  · split at h
    · split_ifs at h with hnz
      · dsimp only at h
        rw [Option.some.injEq] at h
        subst h
        refine ⟨?_, ?_⟩ <;> split_ifs with h1 h2 <;> try norm_num
        · exact div_nonneg (by nlinarith [h2.1]) (by norm_num)
        · rw [div_le_iff₀ (by norm_num : (0:ℚ) < 7/10)]
          nlinarith [h2.2]
      · rw [Option.some.injEq] at h
        subst h
        exact ⟨le_refl 0, by norm_num⟩
    · rw [Option.some.injEq] at h
      subst h
      exact ⟨le_refl 0, by norm_num⟩
  · split at h
    · split at h
      · exact absurd h (by simp)
      · dsimp only at h
        rw [Option.some.injEq] at h
        subst h
        refine ⟨?_, ?_⟩ <;> split_ifs with h1 h2 <;> try norm_num
        · exact div_nonneg (by nlinarith [h2.1]) (by norm_num)
        · rw [div_le_iff₀ (by norm_num : (0:ℚ) < 7/10)]
          nlinarith [h2.2]
    · rw [Option.some.injEq] at h
      subst h
      exact ⟨le_refl 0, by norm_num⟩

/-- For a type-compatible pair with defined capacity component, the
compatibility score is the capped additive combination of the components. -/
theorem compatibilityScore_of_compatible (v : Vessel) (c : Cargo) (cap : ℚ)
    (hb : vesselCargoTypeCompatible v.vessel_type c.cargo_type = true)
    (hcap : capacityScore v c = some cap) :
    compatibilityScore v c =
      some (min 100 (40 + cap * (3/10) + laycanScore v c * (1/5) + specialScore v c * (1/10))) := by
  unfold compatibilityScore
  rw [hb]
  simp only [hcap, if_true]

/-- For a type-incompatible pair the compatibility score is exactly 0. -/
theorem compatibilityScore_of_incompatible (v : Vessel) (c : Cargo)
    (hb : vesselCargoTypeCompatible v.vessel_type c.cargo_type = false) :
    compatibilityScore v c = some 0 := by
  unfold compatibilityScore
  rw [hb]
  simp

/-- C10 — For every vessel and cargo, the value returned by the
compatibility scorer is either exactly 0 (exactly when the vessel type
cannot carry the cargo type) or lies in the interval [40, 100]; no
returned score falls strictly between 0 and 40. -/
theorem c10_compatibility_score_range (v : Vessel) (c : Cargo) (q : ℚ)
    (h : compatibilityScore v c = some q) :
    (q = 0 ∧ vesselCargoTypeCompatible v.vessel_type c.cargo_type = false) ∨
      (40 ≤ q ∧ q ≤ 100) := by
  by_cases hb : vesselCargoTypeCompatible v.vessel_type c.cargo_type = true
  · right
    cases hcap : capacityScore v c with
    | none =>
      rw [compatibilityScore, hb] at h
      simp only [hcap] at h
      simp at h
    | some cap =>
      rw [compatibilityScore_of_compatible v c cap hb hcap] at h
      rw [Option.some.injEq] at h
      subst h
      obtain ⟨hc0, _⟩ := capacityScore_bounds v c cap hcap
      obtain ⟨hl0, _⟩ := laycanScore_bounds v c
      obtain ⟨hs0, _⟩ := specialScore_bounds v c
      exact ⟨le_min (by norm_num) (by nlinarith), min_le_left _ _⟩
  · left
    rw [Bool.not_eq_true] at hb
    rw [compatibilityScore_of_incompatible v c hb] at h
    rw [Option.some.injEq] at h
    exact ⟨h.symm, hb⟩

/-- Witness for C10 at the concrete pair `(vesselA, cargoA)` (score 78). -/
theorem c10_compatibility_score_range_witness :
    ((78 : ℚ) = 0 ∧ vesselCargoTypeCompatible vesselA.vessel_type cargoA.cargo_type = false) ∨
      ((40 : ℚ) ≤ 78 ∧ (78 : ℚ) ≤ 100) :=
  c10_compatibility_score_range vesselA cargoA 78 (by with_unfolding_all decide)

/-- C2 corrected — the scorer is a deterministic pure function on a 0–100
scale: it returns 0 exactly on type-incompatible pairs (per the
`compatibility_matrix`), and otherwise (whenever its capacity component is
defined) `min 100 (40 + 0.3·capacity + 0.2·laycan + 0.1·special)`, a value
in [40, 100]; it is not the multiplicative 0–10 scheme of the claim. -/
theorem c2_compatibility_scorer_amended (v : Vessel) (c : Cargo) :
    (vesselCargoTypeCompatible v.vessel_type c.cargo_type = false →
      compatibilityScore v c = some 0) ∧
    (∀ cap, vesselCargoTypeCompatible v.vessel_type c.cargo_type = true →
      capacityScore v c = some cap →
      ∃ q, compatibilityScore v c = some q ∧
        q = min 100 (40 + cap * (3/10) + laycanScore v c * (1/5) + specialScore v c * (1/10)) ∧
        40 ≤ q ∧ q ≤ 100) := by
  constructor
  · exact compatibilityScore_of_incompatible v c
  · intro cap hb hcap
    refine ⟨_, compatibilityScore_of_compatible v c cap hb hcap, rfl, ?_, min_le_left _ _⟩
    obtain ⟨hc0, _⟩ := capacityScore_bounds v c cap hcap
    obtain ⟨hl0, _⟩ := laycanScore_bounds v c
    obtain ⟨hs0, _⟩ := specialScore_bounds v c
    exact le_min (by norm_num) (by nlinarith)

/-- Witness for the amended C2 at `(vesselA, cargoA)`: capacity component
60, total score 78. -/
theorem c2_compatibility_scorer_amended_witness :
    ∃ q, compatibilityScore vesselA cargoA = some q ∧
      q = min 100 (40 + 60 * (3/10) + laycanScore vesselA cargoA * (1/5) +
        specialScore vesselA cargoA * (1/10)) ∧
      40 ≤ q ∧ q ≤ 100 :=
  (c2_compatibility_scorer_amended vesselA cargoA).2 60
    (by with_unfolding_all decide) (by with_unfolding_all decide)

/-- Counterexample to C2 as stated: the type-compatible pair
`(vesselA, cargoB)` scores 90, outside the claimed range [0, 10], so the
scorer is not the claimed multiplicative 0–10 function. -/
theorem c2_counterexample :
    compatibilityScore vesselA cargoB = some 90 ∧ ¬ ((90 : ℚ) ≤ 10) := by
  constructor
  · with_unfolding_all decide
  · norm_num

/-- The capacity component of a non-container cargo heavier than the
vessel's deadweight is 0 (the `return 0` fallthrough of
`_calculate_capacity_score`). -/
theorem capacityScore_overweight (v : Vessel) (c : Cargo)
    (hne : c.cargo_type ≠ CargoType.CONTAINERS) (hgt : v.dwt < c.quantity_mt) :
    capacityScore v c = some 0 := by
  unfold capacityScore
  rw [if_neg hne, if_neg (not_le.mpr hgt)]

/-- C5 corrected — for a non-container cargo whose tonnage exceeds the
vessel's deadweight the capacity component is 0, which caps the
compatibility score at 70 (not at 2.0 as claimed). -/
theorem c5_overweight_amended (v : Vessel) (c : Cargo) (q : ℚ)
    (hne : c.cargo_type ≠ CargoType.CONTAINERS) (hgt : v.dwt < c.quantity_mt)
    (h : compatibilityScore v c = some q) : q ≤ 70 := by
  by_cases hb : vesselCargoTypeCompatible v.vessel_type c.cargo_type = true
  · rw [compatibilityScore_of_compatible v c 0 hb (capacityScore_overweight v c hne hgt)] at h
    rw [Option.some.injEq] at h
    subst h
    obtain ⟨_, hl1⟩ := laycanScore_bounds v c
    obtain ⟨_, hs1⟩ := specialScore_bounds v c
    calc min 100 (40 + 0 * (3/10) + laycanScore v c * (1/5) + specialScore v c * (1/10))
        ≤ 40 + 0 * (3/10) + laycanScore v c * (1/5) + specialScore v c * (1/10) :=
          min_le_right _ _
      _ ≤ 70 := by nlinarith
  · rw [Bool.not_eq_true] at hb
    rw [compatibilityScore_of_incompatible v c hb] at h
    rw [Option.some.injEq] at h
    subst h
    norm_num

/-- Witness for the amended C5 at `(vesselA, cargoHeavy)` (score 60 ≤ 70). -/
theorem c5_overweight_amended_witness : (60 : ℚ) ≤ 70 :=
  c5_overweight_amended vesselA cargoHeavy 60 (by decide)
    (by with_unfolding_all decide) (by with_unfolding_all decide)

/-- Counterexample to C5 as stated: `cargoHeavy` (200000 mt) exceeds
`vesselA`'s deadweight (100000), yet the pair's compatibility score is 60,
far above the claimed bound 2.0. -/
theorem c5_counterexample :
    vesselA.dwt < cargoHeavy.quantity_mt ∧
      compatibilityScore vesselA cargoHeavy = some 60 ∧ ¬ ((60 : ℚ) ≤ 2) := by
  refine ⟨by with_unfolding_all decide, by with_unfolding_all decide, by norm_num⟩

/-- Sorting never adds or removes matches. -/
theorem mem_sortMatches (sortBy : String) (ms : List CargoMatch) (a : CargoMatch) :
    a ∈ sortMatches sortBy ms ↔ a ∈ ms := by
  unfold sortMatches
  split_ifs <;> simp [List.mem_insertionSort]

/-- Sorting the empty list yields the empty list. -/
theorem sortMatches_nil (sortBy : String) : sortMatches sortBy [] = [] := by
  unfold sortMatches
  split_ifs <;> rfl

/-- A kept match was produced by `evaluateMatch` and passed the
`min_compatibility` filter. -/
theorem evalFiltered_some (dist : DistFn) (minCompatibility : ℚ) (v : Vessel) (c : Cargo)
    (m : CargoMatch) (h : evalFiltered dist minCompatibility v c = some m) :
    evaluateMatch dist v c = some m ∧ minCompatibility ≤ m.compatibility_score := by
  unfold evalFiltered at h
  cases he : evaluateMatch dist v c with
  | none => rw [he] at h; exact absurd h (by simp)
  | some m0 =>
    rw [he] at h
    dsimp only at h
    split at h
    · rw [Option.some.injEq] at h
      subst h
      rename_i hge
      exact ⟨rfl, hge⟩
    · exact absurd h (by simp)

/-- The flatten of a map of empty lists is empty. -/
theorem flatten_map_nil {α β : Type} (l : List α) :
    (l.map fun _ => ([] : List β)).flatten = [] := by
  induction l with
  | nil => rfl
  | cons a t ih => simp [ih]

/-- C3 — an empty vessel pool or an empty cargo pool makes
`find_optimal_matches` return the empty list (no exception is raised: the
function is total). -/
theorem c3_empty_pool_empty_result (dist : DistFn) (vessels : List Vessel)
    (cargos : List Cargo) (maxMatches : ℕ) (minCompatibility : ℚ) (sortBy : String)
    (h : vessels = [] ∨ cargos = []) :
    findOptimalMatches dist vessels cargos maxMatches minCompatibility sortBy = [] := by
  rcases h with rfl | rfl
  · simp [findOptimalMatches, sortMatches_nil]
  · unfold findOptimalMatches
    rw [show (vessels.map fun v => List.filterMap
        (fun c => evalFiltered dist minCompatibility v c) []) = vessels.map fun _ => [] from
      List.map_congr_left fun v _ => rfl]
    rw [flatten_map_nil, sortMatches_nil]
    simp

/-- Witness for C3: an empty vessel pool against a nonempty cargo pool. -/
theorem c3_empty_pool_empty_result_witness :
    findOptimalMatches distZero [] [cargoA, cargoB] 10 70 "profitability" = [] :=
  c3_empty_pool_empty_result distZero [] [cargoA, cargoB] 10 70 "profitability" (Or.inl rfl)

/-- C4 — a vessel/cargo pairing whose evaluation fails (its exception is
caught and turned into `None` by `_evaluate_match`) contributes nothing:
removing such a cargo from anywhere in the pool leaves the entire result
unchanged, so the loop continues over the remaining pairings and the call
still returns its ranked list. -/
theorem c4_failed_pairing_skipped (dist : DistFn) (vessels : List Vessel)
    (pre post : List Cargo) (c0 : Cargo) (maxMatches : ℕ) (minCompatibility : ℚ)
    (sortBy : String) (h : ∀ v ∈ vessels, evaluateMatch dist v c0 = none) :
    findOptimalMatches dist vessels (pre ++ c0 :: post) maxMatches minCompatibility sortBy =
      findOptimalMatches dist vessels (pre ++ post) maxMatches minCompatibility sortBy := by
  unfold findOptimalMatches
  rw [show (vessels.map fun v => (pre ++ c0 :: post).filterMap fun c =>
      evalFiltered dist minCompatibility v c) = vessels.map fun v =>
        (pre ++ post).filterMap fun c => evalFiltered dist minCompatibility v c from ?_]
  apply List.map_congr_left
  intro v hv
  have h0 : evalFiltered dist minCompatibility v c0 = none := by
    unfold evalFiltered
    rw [h v hv]
  simp [List.filterMap_append, List.filterMap_cons, h0]

/-- Witness for C4: `(vesselC, cargoNoTeu)` raises a `TypeError` inside the
economics computation (caught, yielding `None`); dropping that cargo from
the pool leaves the result unchanged. -/
theorem c4_failed_pairing_skipped_witness :
    findOptimalMatches distZero [vesselC] ([] ++ cargoNoTeu :: [cargoTeu]) 10 70 "profitability" =
      findOptimalMatches distZero [vesselC] ([] ++ [cargoTeu]) 10 70 "profitability" :=
  c4_failed_pairing_skipped distZero [vesselC] [] [cargoTeu] cargoNoTeu 10 70 "profitability"
    (by intro v hv
        rw [List.mem_singleton] at hv
        subst hv
        with_unfolding_all decide)

/-- C9 — every match returned by `find_optimal_matches` passed the
`min_compatibility` threshold: pairings scoring below it are filtered out,
not merely ranked lower. -/
theorem c9_min_compatibility_filter (dist : DistFn) (vessels : List Vessel)
    (cargos : List Cargo) (maxMatches : ℕ) (minCompatibility : ℚ) (sortBy : String)
    (m : CargoMatch)
    (h : m ∈ findOptimalMatches dist vessels cargos maxMatches minCompatibility sortBy) :
    minCompatibility ≤ m.compatibility_score := by
  unfold findOptimalMatches at h
  have h1 := List.mem_of_mem_take h
  rw [mem_sortMatches] at h1
  rw [List.mem_flatten] at h1
  obtain ⟨l, hl, hml⟩ := h1
  rw [List.mem_map] at hl
  obtain ⟨v, _, rfl⟩ := hl
  rw [List.mem_filterMap] at hml
  obtain ⟨c, _, hfc⟩ := hml
  exact (evalFiltered_some _ _ _ _ _ hfc).2

/-- C8 — `find_optimal_matches` takes no random input at all (the claim's
"injected seed" does not exist in the code): two calls on identical
registry states return identical ordered result sequences. -/
theorem c8_deterministic (dist : DistFn) (vessels1 vessels2 : List Vessel)
    (cargos1 cargos2 : List Cargo) (maxMatches : ℕ) (minCompatibility : ℚ) (sortBy : String)
    (hv : vessels1 = vessels2) (hc : cargos1 = cargos2) :
    findOptimalMatches dist vessels1 cargos1 maxMatches minCompatibility sortBy =
      findOptimalMatches dist vessels2 cargos2 maxMatches minCompatibility sortBy := by
  subst hv
  subst hc
  rfl

/-- Witness for C8 at a concrete registry state. -/
theorem c8_deterministic_witness :
    findOptimalMatches distZero [vesselA] [cargoA, cargoB] 10 70 "profitability" =
      findOptimalMatches distZero [vesselA] [cargoA, cargoB] 10 70 "profitability" :=
  c8_deterministic distZero [vesselA] [vesselA] [cargoA, cargoB] [cargoA, cargoB]
    10 70 "profitability" rfl rfl

/-- C1 corrected — the result length never exceeds `max_matches`, and under
the default `sort_by="profitability"` the result is ordered descending by
`profitability_score` (a step function of the profit margin), not by the
claim's fitness formula. -/
theorem c1_ranking_amended (dist : DistFn) (vessels : List Vessel) (cargos : List Cargo)
    (maxMatches : ℕ) (minCompatibility : ℚ) :
    (findOptimalMatches dist vessels cargos maxMatches minCompatibility "profitability").length ≤
        maxMatches ∧
      List.Sorted byProfitability
        (findOptimalMatches dist vessels cargos maxMatches minCompatibility "profitability") := by
  constructor
  · unfold findOptimalMatches
    exact List.length_take_le _ _
  · unfold findOptimalMatches
    apply List.Pairwise.sublist (List.take_sublist _ _)
    unfold sortMatches
    rw [if_pos rfl]
    exact List.sorted_insertionSort byProfitability _

theorem toLower_x : "x".toLower = "x" := by
  with_unfolding_all decide

theorem toLower_y : "y".toLower = "y" := by
  with_unfolding_all decide

theorem portCoordinates_x : portCoordinates "x" = none := by
  simp [portCoordinates, List.lookup]

theorem portCoordinates_y : portCoordinates "y" = none := by
  simp [portCoordinates, List.lookup]

theorem ballastDistance_A : ballastDistance distZero vesselA cargoA = 0 := by
  unfold ballastDistance
  rw [show vesselA.current_location = none from rfl]

theorem ladenDistance_A : ladenDistance distZero cargoA = 5000 := by
  unfold ladenDistance
  rw [show cargoA.loading_port = "x" from rfl, show cargoA.discharge_port = "y" from rfl,
    toLower_x, toLower_y, portCoordinates_x, portCoordinates_y]

theorem canalCosts_A : canalCosts cargoA = 0 := by
  with_unfolding_all decide

theorem voyageEconomics_A : voyageEconomics distZero vesselA cargoA = some econA := by
  rw [voyageEconomics, ballastDistance_A, ladenDistance_A, canalCosts_A]
  norm_num [econA,
    show vesselA.speed_knots = 625/3 from rfl,
    show vesselA.fuel_consumption_mt_day = 0 from rfl,
    show vesselA.daily_hire_rate = 0 from rfl,
    show cargoA.freight_type = "voyage" from rfl,
    show cargoA.cargo_type = CargoType.DRY_BULK from rfl,
    show cargoA.quantity_mt = 10000 from rfl,
    show cargoA.freight_rate = 4 from rfl,
    show CargoType.DRY_BULK ≠ CargoType.CONTAINERS from by decide]

theorem compatibilityScore_A : compatibilityScore vesselA cargoA = some 78 := by
  with_unfolding_all decide

theorem utilizationPercent_A : utilizationPercent vesselA cargoA = some 10 := by
  with_unfolding_all decide

theorem identifyRisks_A : identifyRisks vesselA cargoA econA = [] := by
  with_unfolding_all decide

theorem evaluateMatch_A : evaluateMatch distZero vesselA cargoA = some matchA := by
  rw [evaluateMatch, compatibilityScore_A]
  dsimp only
  rw [if_neg (by norm_num : ¬ (78 : ℚ) < 50)]
  rw [voyageEconomics_A]
  dsimp only
  rw [utilizationPercent_A]
  dsimp only
  rw [identifyRisks_A]
  norm_num [matchA, econA, profitabilityScore]

theorem ballastDistance_B : ballastDistance distZero vesselA cargoB = 0 := by
  unfold ballastDistance
  rw [show vesselA.current_location = none from rfl]

theorem ladenDistance_B : ladenDistance distZero cargoB = 5000 := by
  unfold ladenDistance
  rw [show cargoB.loading_port = "x" from rfl, show cargoB.discharge_port = "y" from rfl,
    toLower_x, toLower_y, portCoordinates_x, portCoordinates_y]

theorem canalCosts_B : canalCosts cargoB = 0 := by
  with_unfolding_all decide

theorem voyageEconomics_B : voyageEconomics distZero vesselA cargoB = some econB := by
  rw [voyageEconomics, ballastDistance_B, ladenDistance_B, canalCosts_B]
  norm_num [econB,
    show vesselA.speed_knots = 625/3 from rfl,
    show vesselA.fuel_consumption_mt_day = 0 from rfl,
    show vesselA.daily_hire_rate = 0 from rfl,
    show cargoB.freight_type = "voyage" from rfl,
    show cargoB.cargo_type = CargoType.DRY_BULK from rfl,
    show cargoB.quantity_mt = 80000 from rfl,
    show cargoB.freight_rate = 37/80 from rfl,
    show CargoType.DRY_BULK ≠ CargoType.CONTAINERS from by decide]

theorem compatibilityScore_B : compatibilityScore vesselA cargoB = some 90 := by
  with_unfolding_all decide

theorem utilizationPercent_B : utilizationPercent vesselA cargoB = some 80 := by
  with_unfolding_all decide

theorem identifyRisks_B : identifyRisks vesselA cargoB econB = [] := by
  with_unfolding_all decide

theorem evaluateMatch_B : evaluateMatch distZero vesselA cargoB = some matchB := by
  rw [evaluateMatch, compatibilityScore_B]
  dsimp only
  rw [if_neg (by norm_num : ¬ (90 : ℚ) < 50)]
  rw [voyageEconomics_B]
  dsimp only
  rw [utilizationPercent_B]
  dsimp only
  rw [identifyRisks_B]
  norm_num [matchB, econB, profitabilityScore]

theorem evalFiltered_A : evalFiltered distZero 70 vesselA cargoA = some matchA := by
  rw [evalFiltered, evaluateMatch_A]
  dsimp only
  rw [if_pos (by norm_num [matchA] : matchA.compatibility_score ≥ (70 : ℚ))]

theorem evalFiltered_B : evalFiltered distZero 70 vesselA cargoB = some matchB := by
  rw [evalFiltered, evaluateMatch_B]
  dsimp only
  rw [if_pos (by norm_num [matchB] : matchB.compatibility_score ≥ (70 : ℚ))]

/-- The concrete two-cargo registry evaluates to `[matchA, matchB]`:
`matchA` (profitability 100) is sorted before `matchB` (profitability 90). -/
theorem findOptimalMatches_AB :
    findOptimalMatches distZero [vesselA] [cargoA, cargoB] 10 70 "profitability" =
      [matchA, matchB] := by
  rw [findOptimalMatches]
  simp only [List.map_cons, List.map_nil, List.filterMap_cons, List.filterMap_nil,
    evalFiltered_A, evalFiltered_B, List.flatten_cons, List.flatten_nil, List.append_nil]
  rw [sortMatches]
  rw [if_pos rfl]
  simp only [List.insertionSort, List.orderedInsert]
  rw [if_pos (show byProfitability matchA matchB from by norm_num [byProfitability, matchA, matchB])]
  rfl

/-- Counterexample to C1 as stated: on the registry `[vesselA]` /
`[cargoA, cargoB]` with the default arguments, the returned sequence is
`[matchA, matchB]` with fitness 78.25 before fitness ≈ 90.19 (both risk
lists are empty, so the spec-derived risk score is 0 for any parse): the
output is ordered by `profitability_score`, not by the fitness formula. -/
theorem c1_counterexample :
    ¬ List.Sorted byFitness
      (findOptimalMatches distZero [vesselA] [cargoA, cargoB] 10 70 "profitability") := by
  with_unfolding_all decide

/-- Witness for C9: the returned `matchA` satisfies the default threshold. -/
theorem c9_min_compatibility_filter_witness : (70 : ℚ) ≤ matchA.compatibility_score :=
  c9_min_compatibility_filter distZero [vesselA] [cargoA, cargoB] 10 70 "profitability" matchA
    (by rw [findOptimalMatches_AB]; exact List.mem_cons_self _ _)

/-- C6 — `add_vessel` / `add_cargo` report failure and leave the store
unchanged on a duplicate id, append and report success on a fresh id, and
therefore preserve pairwise-distinct ids. -/
theorem c6_add_duplicate_id (dbv : List Vessel) (v : Vessel) (dbc : List Cargo) (c : Cargo) :
    ((∃ w ∈ dbv, w.id = v.id) → addVessel dbv v = (dbv, false)) ∧
    ((∀ w ∈ dbv, w.id ≠ v.id) → addVessel dbv v = (dbv ++ [v], true)) ∧
    ((dbv.map Vessel.id).Nodup → ((addVessel dbv v).1.map Vessel.id).Nodup) ∧
    ((∃ w ∈ dbc, w.id = c.id) → addCargo dbc c = (dbc, false)) ∧
    ((∀ w ∈ dbc, w.id ≠ c.id) → addCargo dbc c = (dbc ++ [c], true)) ∧
    ((dbc.map Cargo.id).Nodup → ((addCargo dbc c).1.map Cargo.id).Nodup) := by
  refine ⟨?_, ?_, ?_, ?_, ?_, ?_⟩
  · intro ⟨w, hw, he⟩
    unfold addVessel
    rw [if_pos]
    exact List.any_eq_true.mpr ⟨w, hw, beq_iff_eq.mpr he⟩
  · intro h
    unfold addVessel
    rw [if_neg]
    simp only [List.any_eq_true, beq_iff_eq, not_exists]
    intro w
    exact fun hmem => h w hmem.1 hmem.2
  · intro hnd
    unfold addVessel
    split
    · exact hnd
    · rename_i hany
      rw [List.map_append, List.nodup_append]
      refine ⟨hnd, List.nodup_singleton _, ?_⟩
      intro a ha hb
      rw [List.mem_map] at ha
      obtain ⟨w, hw, rfl⟩ := ha
      rw [List.map_singleton, List.mem_singleton] at hb
      exact hany (List.any_eq_true.mpr ⟨w, hw, beq_iff_eq.mpr hb⟩)
  · intro ⟨w, hw, he⟩
    unfold addCargo
    rw [if_pos]
    exact List.any_eq_true.mpr ⟨w, hw, beq_iff_eq.mpr he⟩
  · intro h
    unfold addCargo
    rw [if_neg]
    simp only [List.any_eq_true, beq_iff_eq, not_exists]
    intro w
    exact fun hmem => h w hmem.1 hmem.2
  · intro hnd
    unfold addCargo
    split
    · exact hnd
    · rename_i hany
      rw [List.map_append, List.nodup_append]
      refine ⟨hnd, List.nodup_singleton _, ?_⟩
      intro a ha hb
      rw [List.mem_map] at ha
      obtain ⟨w, hw, rfl⟩ := ha
      rw [List.map_singleton, List.mem_singleton] at hb
      exact hany (List.any_eq_true.mpr ⟨w, hw, beq_iff_eq.mpr hb⟩)

/-- Witness for C6: re-adding `vesselA` to a store already holding it
fails and leaves the store unchanged. -/
theorem c6_add_duplicate_id_witness : addVessel [vesselA] vesselA = ([vesselA], false) :=
  (c6_add_duplicate_id [vesselA] vesselA [] cargoA).1
    ⟨vesselA, List.mem_singleton.mpr rfl, rfl⟩

/-- Indices drawn by `buildCandidate` stay pairwise distinct: a drawn pair
is only kept when both its indices are unused in the accumulator. -/
theorem buildCandidate_nodup :
    ∀ (fuel s nV nC : ℕ) (acc : List (ℕ × ℕ)),
      (acc.map Prod.fst).Nodup → (acc.map Prod.snd).Nodup →
      ((buildCandidate fuel s nV nC acc).map Prod.fst).Nodup ∧
        ((buildCandidate fuel s nV nC acc).map Prod.snd).Nodup := by
  intro fuel
  induction fuel with
  | zero =>
    intro s nV nC acc h1 h2
    exact ⟨h1, h2⟩
  | succ n ih =>
    intro s nV nC acc h1 h2
    rw [buildCandidate]
    split
    · exact ⟨h1, h2⟩
    · dsimp only
      split
      · exact ih _ _ _ _ h1 h2
      · rename_i hmin hany
        apply ih
        · simp only [List.map_cons, List.nodup_cons]
          refine ⟨?_, h1⟩
          intro hmem
          rw [List.mem_map] at hmem
          obtain ⟨p, hp, hpi⟩ := hmem
          exact hany (List.any_eq_true.mpr ⟨p, hp, by simp [hpi]⟩)
        · simp only [List.map_cons, List.nodup_cons]
          refine ⟨?_, h2⟩
          intro hmem
          rw [List.mem_map] at hmem
          obtain ⟨p, hp, hpi⟩ := hmem
          exact hany (List.any_eq_true.mpr ⟨p, hp, by simp [hpi]⟩)

/-- C7 — every Candidate produced by the population initialization has
pairwise distinct vessel indices and pairwise distinct cargo indices (a
partial bijection at creation time). -/
theorem c7_init_candidates_partial_bijection (seed nV nC popSize : ℕ)
    (cand : List (ℕ × ℕ)) (h : cand ∈ initPopulation seed nV nC popSize) :
    (cand.map Prod.fst).Nodup ∧ (cand.map Prod.snd).Nodup := by
  unfold initPopulation at h
  rw [List.mem_map] at h
  obtain ⟨k, _, rfl⟩ := h
  exact buildCandidate_nodup _ _ _ _ [] (by simp) (by simp)

/-- Witness for C7: the first candidate of a concrete 3 × 3 population. -/
theorem c7_init_candidates_partial_bijection_witness :
    (([(1, 2), (2, 1), (0, 0)] : List (ℕ × ℕ)).map Prod.fst).Nodup ∧
      (([(1, 2), (2, 1), (0, 0)] : List (ℕ × ℕ)).map Prod.snd).Nodup :=
  c7_init_candidates_partial_bijection 1 3 3 2 [(1, 2), (2, 1), (0, 0)] (by decide)
